import Mathlib

/-!
# Shallow embedding of `cloudflare_ddns.py`

The script is a single-pass, synchronous agent.  We embed it as a pure
function from an `Env` — everything the outside world feeds one run
(current time, the contents of the `.last_run` file, the DNS answer for
the public-IP lookup, the outcome of each HTTP attempt, the configured
record name) — to a trace of observable events (log lines, the timestamp
write, DNS/HTTP calls, sleeps) together with the process outcome.

Conventions of the embedding:
* Python `time.time()` floats are modelled as rationals (`ℚ`); the claims
  only ever subtract and compare them.
* `os.getenv` and `dict.get` return `Option String`; Python's `==` between
  two such values (where `None == None` is `True`) is `Option` equality.
* An HTTP GET attempt that returns status 200 but whose body fails to
  parse as JSON raises inside the `try`, so it is folded into the
  `ListAttempt.exn` case along with transport errors.
* `sys.exit n` is `Outcome.exited n`; an uncaught Python exception
  (which terminates the interpreter with a traceback and a non-zero
  exit status) is `Outcome.raised`.
-/

namespace DDNS

/-- `MIN_SECONDS_BETWEEN_RUNS = 55` from the source. -/
def MIN_SECONDS_BETWEEN_RUNS : ℚ := 55

/-- `MAX_RETRIES = 3` from the source. -/
def MAX_RETRIES : ℕ := 3

/-- `RETRY_BACKOFF_SECONDS = 5` from the source. -/
def RETRY_BACKOFF_SECONDS : ℕ := 5

/-! ## Python `float()` on stripped file contents

`__rate_limit` runs `float(f.read().strip() or 0)`.  We model `str.strip`
(whitespace on both ends) and `float` on decimal literals — an optional
sign, digits with an optional fractional part and an optional decimal
exponent.  The special literals `inf`/`nan` and digit-group underscores
accepted by CPython are not modelled; no theorem below depends on them. -/

/-- Strip leading and trailing whitespace from a character list
(Python `str.strip()`). -/
def stripChars (l : List Char) : List Char :=
  ((l.dropWhile Char.isWhitespace).reverse.dropWhile Char.isWhitespace).reverse

/-- Numeric value of a digit string, most significant first. -/
def digitsVal (l : List Char) : ℕ :=
  l.foldl (fun a c => 10 * a + (c.toNat - 48)) 0

/-- Split a character list into its maximal leading run of digits and the rest. -/
def takeDigits : List Char → List Char × List Char
  | [] => ([], [])
  | c :: cs =>
    if c.isDigit then
      let p := takeDigits cs
      (c :: p.1, p.2)
    else ([], c :: cs)

/-- Parse the digits of an exponent (after an optional sign has been
consumed); the whole rest of the input must be digits. -/
def expDigits (base : ℚ) (neg : Bool) (l : List Char) : Option ℚ :=
  let p := takeDigits l
  if p.1 = [] ∨ p.2 ≠ [] then none
  else some (if neg then base / 10 ^ digitsVal p.1 else base * 10 ^ digitsVal p.1)

/-- Parse an exponent suffix: optional sign, then at least one digit. -/
def applyExp (base : ℚ) : List Char → Option ℚ
  | '+' :: r => expDigits base false r
  | '-' :: r => expDigits base true r
  | l => expDigits base false l

/-- Parse an unsigned float literal: `digits [. digits] [e digits]`,
with at least one digit in the integer or fractional part. -/
def parseUnsigned (l : List Char) : Option ℚ :=
  let p := takeDigits l
  match p.2 with
  | [] => if p.1 = [] then none else some (digitsVal p.1)
  | '.' :: r2 =>
    let q := takeDigits r2
    if p.1 = [] ∧ q.1 = [] then none
    else
      let base : ℚ := (digitsVal p.1 : ℚ) + (digitsVal q.1 : ℚ) / 10 ^ q.1.length
      match q.2 with
      | [] => some base
      | 'e' :: r4 => applyExp base r4
      | 'E' :: r4 => applyExp base r4
      | _ => none
  | 'e' :: r2 => if p.1 = [] then none else applyExp (digitsVal p.1) r2
  | 'E' :: r2 => if p.1 = [] then none else applyExp (digitsVal p.1) r2
  | _ => none

/-- Parse a signed float literal. -/
def parseSigned : List Char → Option ℚ
  | '+' :: r => parseUnsigned r
  | '-' :: r => (parseUnsigned r).map (fun q => -q)
  | l => parseUnsigned l

/-- Python `float(s)` (after stripping), on the decimal-literal fragment. -/
def pyFloat (s : String) : Option ℚ :=
  parseSigned (stripChars s.data)

/-! ## Data model -/

/-- One DNS record object from the list response; each field is read with
`dict.get`, hence `Option` (absent key gives `None`). -/
structure DnsRecord where
  id : Option String
  type : Option String
  name : Option String
  content : Option String
  deriving DecidableEq

/-- The parsed JSON body of a 200 list response, as far as the driver
inspects it: whether the dict has keys other than `"result"` (for Python
truthiness of the dict), and the `"result"` array when that key exists. -/
structure ListBody where
  hasOtherKeys : Bool
  result : Option (List DnsRecord)
  deriving DecidableEq

/-- Python truthiness test `not records` for the body dict: falsy iff
the dict is empty. -/
def bodyFalsy (b : ListBody) : Bool :=
  !b.hasOtherKeys && b.result.isNone

/-- Outcome of one `requests.get` attempt in the list-call retry loop. -/
inductive ListAttempt
  | ok (body : ListBody)
  | err (text : String)
  | exn (msg : String)
  deriving DecidableEq

/-- Result of the public-IP DNS resolution: either an answer list
(possibly empty — the `for`/`return` then falls through to `None` with no
log) or a raised exception caught by the function. -/
inductive DnsResult
  | answers (l : List String)
  | raised (msg : String)
  deriving DecidableEq

/-- Observable events of one run. -/
inductive Event
  | logInfo (msg : String)
  | logError (msg : String)
  | writeTimestamp (t : ℚ)
  | dnsQuery
  | httpGet (attempt : ℕ)
  | sleep (seconds : ℕ)
  | httpPut (id : Option String) (content : String) (name : Option String)
  deriving DecidableEq

/-- Everything the environment feeds one run of the script. -/
structure Env where
  now : ℚ
  rateLimitFile : Option String
  dns : DnsResult
  listAttempt : ℕ → ListAttempt
  recordName : Option String
  putOk : ℕ → Bool
  putErr : ℕ → String

/-- Process outcome: `sys.exit code` / falling off `main` (`exited 0`),
or an uncaught exception (`raised`, a non-zero interpreter exit). -/
inductive Outcome
  | exited (code : ℕ)
  | raised
  deriving DecidableEq

/-- Event classifiers. -/
def isPut : Event → Bool
  | .httpPut _ _ _ => true
  | _ => false

/-- Network events: the DNS query and both kinds of HTTP call. -/
def isNet : Event → Bool
  | .dnsQuery => true
  | .httpGet _ => true
  | .httpPut _ _ _ => true
  | _ => false

/-- Seconds slept by an event. -/
def sleepSecs : Event → ℕ
  | .sleep s => s
  | _ => 0

/-- Total seconds slept along a trace. -/
def sleepTotal (evs : List Event) : ℕ :=
  (evs.map sleepSecs).sum

/-- Python `f"{x}"` on an `Option String` (`None` prints as `"None"`). -/
def pyStrOpt : Option String → String
  | none => "None"
  | some s => s

/-! ## `__rate_limit` -/

/-- Outcome of `__rate_limit`: `blocked` is `sys.exit(0)`, `proceed`
returns to `main`, `raised` is the uncaught `ValueError` from `float()`
on non-empty unparseable file contents. -/
inductive RlOutcome
  | blocked
  | proceed
  | raised
  deriving DecidableEq

/-- `__rate_limit` (source lines 21–33).  If the file exists, read it and
compute `float(contents.strip() or 0)`; block with `sys.exit(0)` when
`now - last_run < MIN_SECONDS_BETWEEN_RUNS`; otherwise (and when the file
is absent) write `now` back. -/
def rate_limit (now : ℚ) (file : Option String) : List Event × RlOutcome :=
  match file with
  | none => ([Event.writeTimestamp now], .proceed)
  | some s =>
    match (if stripChars s.data = [] then some (0 : ℚ) else pyFloat s) with
    | none => ([], .raised)
    | some last =>
      if now - last < MIN_SECONDS_BETWEEN_RUNS then
        ([Event.logInfo "rate limit hit — skipping execution"], .blocked)
      else
        ([Event.writeTimestamp now], .proceed)

/-! ## `__get_public_ip` -/

/-- `__get_public_ip` (source lines 76–86): one DNS query; on success
return the first answer (or fall through to `None` on an empty answer,
with no log); on an exception log an error and return `None`. -/
def get_public_ip : DnsResult → List Event × Option String
  | .answers l => ([Event.dnsQuery], l.head?)
  | .raised m =>
    ([Event.dnsQuery, Event.logError ("Error resolving public IP: " ++ m)], none)

/-! ## `__get_cloudflare_dns_records` -/

/-- Result of the list call: a 200 body, or `sys.exit(1)` after all
retries failed. -/
inductive GetOutcome
  | ok (body : ListBody)
  | exit1
  deriving DecidableEq

/-- The retry loop `for attempt in range(1, MAX_RETRIES + 1)` of
`__get_cloudflare_dns_records`: each failed attempt logs an error and
sleeps `RETRY_BACKOFF_SECONDS * attempt`; a 200 attempt returns its body
at once; exhaustion is `sys.exit(1)`. -/
def attemptLoop (att : ℕ → ListAttempt) : List ℕ → List Event × GetOutcome
  | [] => ([], .exit1)
  | k :: ks =>
    match att k with
    | .ok body => ([Event.httpGet k], .ok body)
    | .err t =>
      let rest := attemptLoop att ks
      (Event.httpGet k :: Event.logError ("Cloudflare API error: " ++ t) ::
        Event.sleep (RETRY_BACKOFF_SECONDS * k) :: rest.1, rest.2)
    | .exn m =>
      let rest := attemptLoop att ks
      (Event.httpGet k :: Event.logError ("attempt " ++ toString k ++ " failed: " ++ m) ::
        Event.sleep (RETRY_BACKOFF_SECONDS * k) :: rest.1, rest.2)

/-- `__get_cloudflare_dns_records` (source lines 89–118). -/
def get_cloudflare_dns_records (att : ℕ → ListAttempt) : List Event × GetOutcome :=
  let r := attemptLoop att (List.range' 1 MAX_RETRIES)
  (Event.logInfo "getting cloudflare dns records" :: r.1, r.2)

/-! ## `__update_cloudflare_dns_record` -/

/-- `__update_cloudflare_dns_record` (source lines 121–151): log, issue
the PUT, then log success (200) or an error (non-200 or exception — both
produce the same error log shape and return `None`, which the caller
ignores, so we return only the events). -/
def update_cloudflare_dns_record (ok : Bool) (err : String)
    (id : Option String) (ip : String) (name : Option String) : List Event :=
  Event.logInfo ("updating cloudflare dns record " ++ pyStrOpt id ++ " to " ++ ip) ::
  Event.httpPut id ip name ::
  (if ok then
    [Event.logInfo ("cloudflare dns record " ++ pyStrOpt id ++ " updated to " ++ ip)]
  else
    [Event.logError ("Error updating cloudflare dns record: " ++ err)])

/-! ## The record loop of `main` -/

/-- The branch taken by the loop body of `main` for one record. -/
inductive RecAction
  | skip
  | update
  | upToDate
  | notTarget
  deriving DecidableEq

/-- The decision structure of `main`'s loop body (source lines 172–191):
the three-way name/content branch sits inside the `type == "A"` guard. -/
def decideRecord (cfg : Option String) (ip : String) (r : DnsRecord) : RecAction :=
  if r.type = some "A" then
    if r.name = cfg ∧ r.content ≠ some ip then .update
    else if r.name = cfg then .upToDate
    else .notTarget
  else .skip

/-- The full condition under which a record triggers the update call. -/
def updateGuard (cfg : Option String) (ip : String) (r : DnsRecord) : Bool :=
  decide (r.type = some "A" ∧ r.name = cfg ∧ r.content ≠ some ip)

/-- `main`'s `for record in records["result"]` loop (source lines
169–191).  `n` counts the update calls issued so far, indexing the
environment's outcome for each PUT.  A `skip` record (type ≠ "A")
emits no event at all; every other record first emits the
"checking record" log line. -/
def processRecords (cfg : Option String) (ip : String)
    (ok : ℕ → Bool) (err : ℕ → String) : List DnsRecord → ℕ → List Event
  | [], _ => []
  | r :: rs, n =>
    match decideRecord cfg ip r with
    | .skip => processRecords cfg ip ok err rs n
    | .update =>
      Event.logInfo ("checking record " ++ pyStrOpt r.name) ::
      Event.logInfo ("updating record " ++ pyStrOpt r.name ++ " from " ++
        pyStrOpt r.content ++ " to " ++ ip) ::
      (update_cloudflare_dns_record (ok n) (err n) r.id ip r.name ++
        processRecords cfg ip ok err rs (n + 1))
    | .upToDate =>
      Event.logInfo ("checking record " ++ pyStrOpt r.name) ::
      Event.logInfo ("record " ++ pyStrOpt r.name ++ " is already up to date") ::
      processRecords cfg ip ok err rs n
    | .notTarget =>
      Event.logInfo ("checking record " ++ pyStrOpt r.name) ::
      Event.logInfo ("record " ++ pyStrOpt r.name ++ " is not the record we want to update") ::
      processRecords cfg ip ok err rs n

/-! ## `main` -/

/-- Python truthiness test `not public_ip_address` on an optional string. -/
def optFalsy : Option String → Bool
  | none => true
  | some s => decide (s = "")

/-- `main` from the list call on (source lines 164–191): fetch the
records; on `sys.exit(1)` propagate it; on a body that is falsy or has no
`"result"` key, log and return; else run the record loop. -/
def mainDecide (env : Env) (ip : String) : List Event × Outcome :=
  match (get_cloudflare_dns_records env.listAttempt).2 with
  | .exit1 => ((get_cloudflare_dns_records env.listAttempt).1, .exited 1)
  | .ok body =>
    if bodyFalsy body = true ∨ body.result = none then
      ((get_cloudflare_dns_records env.listAttempt).1 ++
        [Event.logError "no DNS records returned from Cloudflare"], .exited 0)
    else
      ((get_cloudflare_dns_records env.listAttempt).1 ++
        processRecords env.recordName ip env.putOk env.putErr
          (body.result.getD []) 0, .exited 0)

/-- `main` after the rate limiter (source lines 159–191): resolve the
public IP; if falsy, log and return; else continue with the list call. -/
def mainAfterRl (env : Env) : List Event × Outcome :=
  if optFalsy (get_public_ip env.dns).2 then
    ((get_public_ip env.dns).1 ++
      [Event.logError "public IP address could not be determined"], .exited 0)
  else
    ((get_public_ip env.dns).1 ++
      (mainDecide env ((get_public_ip env.dns).2.getD "")).1,
      (mainDecide env ((get_public_ip env.dns).2.getD "")).2)

/-- `main` (source lines 154–191). -/
def main (env : Env) : List Event × Outcome :=
  match (rate_limit env.now env.rateLimitFile).2 with
  | .blocked =>
    (Event.logInfo "executing dyndns agent" ::
      (rate_limit env.now env.rateLimitFile).1, .exited 0)
  | .raised =>
    (Event.logInfo "executing dyndns agent" ::
      (rate_limit env.now env.rateLimitFile).1, .raised)
  | .proceed =>
    (Event.logInfo "executing dyndns agent" ::
      (rate_limit env.now env.rateLimitFile).1 ++ (mainAfterRl env).1,
      (mainAfterRl env).2)

/-! ## Unfolding lemmas -/

theorem parseSigned_nil : parseSigned [] = none := rfl

theorem pyFloat_of_strip_nil {s : String} (h : stripChars s.data = []) :
    pyFloat s = none := by
  simp [pyFloat, h, parseSigned_nil]

theorem rate_limit_absent (now : ℚ) :
    rate_limit now none = ([Event.writeTimestamp now], .proceed) := rfl

theorem rate_limit_blank (now : ℚ) {s : String} (h : stripChars s.data = []) :
    rate_limit now (some s) =
      if now - 0 < MIN_SECONDS_BETWEEN_RUNS then
        ([Event.logInfo "rate limit hit — skipping execution"], .blocked)
      else ([Event.writeTimestamp now], .proceed) := by
  simp [rate_limit, h]

theorem rate_limit_parsed (now : ℚ) {s : String} {t : ℚ} (hp : pyFloat s = some t) :
    rate_limit now (some s) =
      if now - t < MIN_SECONDS_BETWEEN_RUNS then
        ([Event.logInfo "rate limit hit — skipping execution"], .blocked)
      else ([Event.writeTimestamp now], .proceed) := by
  have hne : ¬ stripChars s.data = [] := by
    intro h
    rw [pyFloat_of_strip_nil h] at hp
    exact Option.noConfusion hp
  simp [rate_limit, hne, hp]

theorem rate_limit_unparseable (now : ℚ) {s : String}
    (hne : stripChars s.data ≠ []) (hp : pyFloat s = none) :
    rate_limit now (some s) = ([], .raised) := by
  simp [rate_limit, hne, hp]

theorem rate_limit_proceed_events {now : ℚ} {f : Option String}
    (h : (rate_limit now f).2 = .proceed) :
    (rate_limit now f).1 = [Event.writeTimestamp now] := by
  unfold rate_limit at *
  cases f with
  | none => rfl
  | some s =>
    rcases hm : (if stripChars s.data = [] then some (0 : ℚ) else pyFloat s) with _ | t <;>
      simp only [hm] at h ⊢
    · exact absurd h (by simp)
    · split at h
      · exact absurd h (by simp)
      · split
        · simp_all
        · rfl

/-! ## Where the update calls can come from -/

theorem attemptLoop_no_put (att : ℕ → ListAttempt) :
    ∀ ks : List ℕ, ((attemptLoop att ks).1).filter isPut = []
  | [] => by simp [attemptLoop]
  | k :: ks => by
    rcases h : att k with body | t | m <;>
      simp [attemptLoop, h, isPut, attemptLoop_no_put att ks]

theorem get_records_no_put (att : ℕ → ListAttempt) :
    ((get_cloudflare_dns_records att).1).filter isPut = [] := by
  simp [get_cloudflare_dns_records, isPut, attemptLoop_no_put]

theorem get_public_ip_no_put (d : DnsResult) :
    ((get_public_ip d).1).filter isPut = [] := by
  cases d <;> simp [get_public_ip, isPut]

theorem decideRecord_update_iff (cfg : Option String) (ip : String) (r : DnsRecord) :
    decideRecord cfg ip r = .update ↔ updateGuard cfg ip r = true := by
  unfold decideRecord updateGuard
  by_cases h1 : r.type = some "A" <;>
    by_cases h2 : r.name = cfg ∧ r.content ≠ some ip <;>
      by_cases h3 : r.name = cfg <;>
        simp [h1, h2, h3]

theorem puts_processRecords (cfg : Option String) (ip : String)
    (ok : ℕ → Bool) (err : ℕ → String) :
    ∀ (rs : List DnsRecord) (n : ℕ),
      (processRecords cfg ip ok err rs n).filter isPut =
        (rs.filter (updateGuard cfg ip)).map (fun r => Event.httpPut r.id ip r.name)
  | [], _ => by simp [processRecords]
  | r :: rs, n => by
    rcases hd : decideRecord cfg ip r with _ | _ | _ | _
    · have hg : updateGuard cfg ip r = false := by
        rcases h : updateGuard cfg ip r
        · rfl
        · exact absurd ((decideRecord_update_iff cfg ip r).mpr h) (by simp [hd])
      simp [processRecords, hd, List.filter_cons, hg,
        puts_processRecords cfg ip ok err rs n]
    · have hg : updateGuard cfg ip r = true := (decideRecord_update_iff cfg ip r).mp hd
      rcases h : ok n <;>
        simp [processRecords, hd, List.filter_cons, hg, isPut,
          update_cloudflare_dns_record, h, puts_processRecords cfg ip ok err rs (n + 1)]
    · have hg : updateGuard cfg ip r = false := by
        rcases h : updateGuard cfg ip r
        · rfl
        · exact absurd ((decideRecord_update_iff cfg ip r).mpr h) (by simp [hd])
      simp [processRecords, hd, List.filter_cons, hg, isPut,
        puts_processRecords cfg ip ok err rs n]
    · have hg : updateGuard cfg ip r = false := by
        rcases h : updateGuard cfg ip r
        · rfl
        · exact absurd ((decideRecord_update_iff cfg ip r).mpr h) (by simp [hd])
      simp [processRecords, hd, List.filter_cons, hg, isPut,
        puts_processRecords cfg ip ok err rs n]

/-! ## Branch lemmas for `main` -/

theorem main_blocked {env : Env}
    (h : (rate_limit env.now env.rateLimitFile).2 = .blocked) :
    main env = (Event.logInfo "executing dyndns agent" ::
      (rate_limit env.now env.rateLimitFile).1, .exited 0) := by
  unfold main
  split <;> simp_all

theorem main_raised {env : Env}
    (h : (rate_limit env.now env.rateLimitFile).2 = .raised) :
    main env = (Event.logInfo "executing dyndns agent" ::
      (rate_limit env.now env.rateLimitFile).1, .raised) := by
  unfold main
  split <;> simp_all

theorem main_proceed {env : Env}
    (h : (rate_limit env.now env.rateLimitFile).2 = .proceed) :
    main env = (Event.logInfo "executing dyndns agent" ::
      Event.writeTimestamp env.now :: (mainAfterRl env).1, (mainAfterRl env).2) := by
  unfold main
  split <;> simp_all [rate_limit_proceed_events h]

theorem mainAfterRl_noip {env : Env}
    (h : optFalsy (get_public_ip env.dns).2 = true) :
    mainAfterRl env = ((get_public_ip env.dns).1 ++
      [Event.logError "public IP address could not be determined"], .exited 0) := by
  unfold mainAfterRl
  simp [h]

theorem mainAfterRl_ip {env : Env} {ip : String}
    (h : (get_public_ip env.dns).2 = some ip) (hne : ip ≠ "") :
    mainAfterRl env = ((get_public_ip env.dns).1 ++ (mainDecide env ip).1,
      (mainDecide env ip).2) := by
  unfold mainAfterRl
  simp [h, optFalsy, hne]

theorem mainDecide_exit1 {env : Env} {ip : String}
    (h : (get_cloudflare_dns_records env.listAttempt).2 = .exit1) :
    mainDecide env ip = ((get_cloudflare_dns_records env.listAttempt).1, .exited 1) := by
  unfold mainDecide
  split <;> simp_all

theorem mainDecide_ok_bad {env : Env} {ip : String} {body : ListBody}
    (h : (get_cloudflare_dns_records env.listAttempt).2 = .ok body)
    (hb : body.result = none) :
    mainDecide env ip = ((get_cloudflare_dns_records env.listAttempt).1 ++
      [Event.logError "no DNS records returned from Cloudflare"], .exited 0) := by
  unfold mainDecide
  split
  · simp_all
  · next body2 heq =>
    rw [h] at heq
    cases heq
    simp [hb]

theorem mainDecide_ok_good {env : Env} {ip : String} {body : ListBody}
    {rs : List DnsRecord}
    (h : (get_cloudflare_dns_records env.listAttempt).2 = .ok body)
    (hb : body.result = some rs) :
    mainDecide env ip = ((get_cloudflare_dns_records env.listAttempt).1 ++
      processRecords env.recordName ip env.putOk env.putErr rs 0, .exited 0) := by
  unfold mainDecide
  split
  · simp_all
  · next body2 heq =>
    rw [h] at heq
    cases heq
    have hf : bodyFalsy body = false := by
      simp [bodyFalsy, hb]
    simp [hf, hb]

/-- The body's `"result"` guard in `main` collapses to "the `"result"` key
is absent": an empty dict has no `"result"` key either. -/
theorem body_guard_iff (body : ListBody) :
    (bodyFalsy body = true ∨ body.result = none) ↔ body.result = none := by
  cases hr : body.result <;> simp [bodyFalsy, hr]

/-- The update calls of a full run are exactly one PUT per listed record
that passes the type/name/content guard, in list order. -/
theorem run_filter_isPut {env : Env} {ip : String} {body : ListBody}
    (hrl : (rate_limit env.now env.rateLimitFile).2 = .proceed)
    (hip : (get_public_ip env.dns).2 = some ip) (hne : ip ≠ "")
    (hls : (get_cloudflare_dns_records env.listAttempt).2 = .ok body) :
    (main env).1.filter isPut =
      ((body.result.getD []).filter (updateGuard env.recordName ip)).map
        (fun r => Event.httpPut r.id ip r.name) := by
  rw [main_proceed hrl, mainAfterRl_ip hip hne]
  cases hb : body.result with
  | none =>
    rw [mainDecide_ok_bad hls hb]
    simp [isPut, List.filter_append, get_records_no_put, get_public_ip_no_put]
  | some rs =>
    rw [mainDecide_ok_good hls hb]
    simp [isPut, List.filter_append, get_records_no_put, get_public_ip_no_put,
      puts_processRecords]

theorem filter_nil_of_false {α : Type} {p : α → Bool} :
    ∀ l : List α, (∀ a ∈ l, p a = false) → l.filter p = []
  | [], _ => rfl
  | a :: l, h => by
    simp [List.filter_cons, h a (by simp),
      filter_nil_of_false l (fun b hb => h b (by simp [hb]))]

/-- The outcome of a run is a function of the rate-limit outcome, the
public-IP truthiness and the list-call outcome alone. -/
theorem main_snd (env : Env) :
    (main env).2 =
      match (rate_limit env.now env.rateLimitFile).2 with
      | .blocked => Outcome.exited 0
      | .raised => Outcome.raised
      | .proceed =>
        if optFalsy (get_public_ip env.dns).2 then Outcome.exited 0
        else
          match (get_cloudflare_dns_records env.listAttempt).2 with
          | .exit1 => Outcome.exited 1
          | .ok _ => Outcome.exited 0 := by
  rcases hrl : (rate_limit env.now env.rateLimitFile).2 with _ | _ | _
  · rw [main_blocked hrl]
  · rw [main_proceed hrl]
    rcases hpip : (get_public_ip env.dns).2 with _ | s
    · have hf : optFalsy (get_public_ip env.dns).2 = true := by
        rw [hpip]; rfl
      rw [mainAfterRl_noip hf]
      simp [optFalsy]
    · by_cases hs : s = ""
      · have hf : optFalsy (get_public_ip env.dns).2 = true := by
          rw [hpip]; simp [optFalsy, hs]
        rw [mainAfterRl_noip hf]
        simp [optFalsy, hs]
      · have hf : optFalsy (get_public_ip env.dns).2 = false := by
          rw [hpip]; simp [optFalsy, hs]
        rw [mainAfterRl_ip hpip hs]
        rcases hg : (get_cloudflare_dns_records env.listAttempt).2 with body | _
        · rcases hb : body.result with _ | rs
          · rw [mainDecide_ok_bad hg hb]
            simp [optFalsy, hs]
          · rw [mainDecide_ok_good hg hb]
            simp [optFalsy, hs]
        · rw [mainDecide_exit1 hg]
          simp [optFalsy, hs]
  · rw [main_raised hrl]

/-! ## Sleep accounting -/

theorem sleepTotal_append (a b : List Event) :
    sleepTotal (a ++ b) = sleepTotal a + sleepTotal b := by
  simp [sleepTotal]

theorem sleepTotal_get_public_ip (d : DnsResult) :
    sleepTotal (get_public_ip d).1 = 0 := by
  cases d <;> simp [get_public_ip, sleepTotal, sleepSecs]

theorem attemptLoop_all_fail {att : ℕ → ListAttempt} :
    ∀ ks : List ℕ, (∀ k ∈ ks, ∀ b, att k ≠ .ok b) →
      (attemptLoop att ks).2 = .exit1 ∧
      sleepTotal (attemptLoop att ks).1 =
        (ks.map (fun k => RETRY_BACKOFF_SECONDS * k)).sum
  | [], _ => by simp [attemptLoop, sleepTotal]
  | k :: ks, h => by
    have ih := @attemptLoop_all_fail att ks
      (fun k2 hk2 => h k2 (by simp [hk2]))
    rcases hk : att k with b | t | m
    · exact absurd hk (h k (by simp) b)
    · refine ⟨by simp [attemptLoop, hk, ih.1], ?_⟩
      simp only [attemptLoop, hk, sleepTotal, sleepSecs, List.map_cons,
        List.sum_cons, List.map_map]
      simpa [sleepTotal] using ih.2
    · refine ⟨by simp [attemptLoop, hk, ih.1], ?_⟩
      simp only [attemptLoop, hk, sleepTotal, sleepSecs, List.map_cons,
        List.sum_cons, List.map_map]
      simpa [sleepTotal] using ih.2

/-! ## Claims -/

/-- Stale A record with the configured name; the C1 counterexample lists
it twice. -/
def c1rec : DnsRecord :=
  { id := some "rid", type := some "A", name := some "example.com",
    content := some "1.2.3.4" }

/-- A run resolving to "5.6.7.8" whose list response contains `c1rec`
twice. -/
def c1env : Env :=
  { now := 0
    rateLimitFile := none
    dns := .answers ["5.6.7.8"]
    listAttempt := fun _ =>
      .ok { hasOtherKeys := true, result := some [c1rec, c1rec] }
    recordName := some "example.com"
    putOk := fun _ => true
    putErr := fun _ => "" }

/-- C1 fails as stated: the list response contains a type-"A" record with
the configured name whose content differs from the resolved IP, yet the
run issues two update calls for that record (one per listed occurrence),
not exactly one. -/
theorem C1_counterexample :
    (get_public_ip c1env.dns).2 = some "5.6.7.8" ∧
    c1rec.type = some "A" ∧ c1rec.name = c1env.recordName ∧
    c1rec.content ≠ some "5.6.7.8" ∧
    c1rec ∈ (({ hasOtherKeys := true, result := some [c1rec, c1rec] } :
      ListBody)).result.getD [] ∧
    (main c1env).1.filter isPut =
      [Event.httpPut (some "rid") "5.6.7.8" (some "example.com"),
       Event.httpPut (some "rid") "5.6.7.8" (some "example.com")] := by
  refine ⟨rfl, rfl, rfl, by decide, by decide, by decide⟩

/-- C1 (amended): in a run that reaches the decision loop with resolved
IP `ip`, if exactly one listed record passes the type/name/content guard,
then exactly one update call is issued: for that record, with `ip` as
content and the record's name and id taken unchanged. -/
theorem C1_unique_match_updates_once {env : Env} {ip : String}
    {body : ListBody} {r : DnsRecord}
    (hrl : (rate_limit env.now env.rateLimitFile).2 = .proceed)
    (hip : (get_public_ip env.dns).2 = some ip) (hne : ip ≠ "")
    (hls : (get_cloudflare_dns_records env.listAttempt).2 = .ok body)
    (hr : (body.result.getD []).filter (updateGuard env.recordName ip) = [r]) :
    (main env).1.filter isPut = [Event.httpPut r.id ip r.name] := by
  rw [run_filter_isPut hrl hip hne hls, hr]
  rfl

/-- A run resolving to "5.6.7.8" whose list response contains `c1rec`
once. -/
def c1wenv : Env :=
  { c1env with
    listAttempt := fun _ => ListAttempt.ok ⟨true, some [c1rec]⟩ }

/-- C1 witness. -/
theorem C1_witness :
    (main c1wenv).1.filter isPut =
      [Event.httpPut c1rec.id "5.6.7.8" c1rec.name] :=
  @C1_unique_match_updates_once c1wenv "5.6.7.8" ⟨true, some [c1rec]⟩ c1rec
    rfl rfl (by decide) (by decide) (by decide)

/-- C2: a listed record with type "A", the configured name and content
equal to the resolved IP takes the "already up to date" branch, never the
update branch; and a run in which every listed A record with the
configured name is up to date issues no update call at all. -/
theorem C2_up_to_date_never_updated {env : Env} {ip : String}
    {body : ListBody} {r : DnsRecord}
    (hty : r.type = some "A") (hnm : r.name = env.recordName)
    (hct : r.content = some ip) :
    decideRecord env.recordName ip r = .upToDate ∧
    ((rate_limit env.now env.rateLimitFile).2 = .proceed →
      (get_public_ip env.dns).2 = some ip → ip ≠ "" →
      (get_cloudflare_dns_records env.listAttempt).2 = .ok body →
      (∀ r2 ∈ body.result.getD [], r2.type = some "A" →
        r2.name = env.recordName → r2.content = some ip) →
      (main env).1.filter isPut = []) := by
  constructor
  · simp [decideRecord, hty, hnm, hct]
  · intro hrl hip hne hls hall
    rw [run_filter_isPut hrl hip hne hls]
    have hg : (body.result.getD []).filter (updateGuard env.recordName ip) = [] := by
      refine filter_nil_of_false _ (fun a ha => ?_)
      have h := hall a ha
      simp only [updateGuard, decide_eq_false_iff_not]
      rintro ⟨h1, h2, h3⟩
      exact h3 (h h1 h2)
    rw [hg]
    rfl

/-- An up-to-date record under resolved IP "1.2.3.4". -/
def c2rec : DnsRecord :=
  { id := some "rid", type := some "A", name := some "example.com",
    content := some "1.2.3.4" }

/-- A run in which the single listed record is already up to date. -/
def c2env : Env :=
  { now := 0
    rateLimitFile := none
    dns := .answers ["1.2.3.4"]
    listAttempt := fun _ =>
      .ok { hasOtherKeys := true, result := some [c2rec] }
    recordName := some "example.com"
    putOk := fun _ => true
    putErr := fun _ => "" }

/-- C2 witness. -/
theorem C2_witness :
    decideRecord c2env.recordName "1.2.3.4" c2rec = .upToDate ∧
    (main c2env).1.filter isPut = [] := by
  have h := @C2_up_to_date_never_updated c2env "1.2.3.4"
    ⟨true, some [c2rec]⟩ c2rec rfl rfl rfl
  exact ⟨h.1, h.2 rfl rfl (by decide) rfl (by decide)⟩

/-- C3: when the timestamp file holds a parseable time `t0` and the run
starts less than 55 seconds after it, the process exits with code 0 and
performs no DNS query and no HTTP call. -/
theorem C3_rate_limited_run_is_silent {env : Env} {s : String} {t0 : ℚ}
    (hf : env.rateLimitFile = some s) (hp : pyFloat s = some t0)
    (ht : env.now - t0 < MIN_SECONDS_BETWEEN_RUNS) :
    (main env).2 = .exited 0 ∧ (main env).1.filter isNet = [] := by
  have hrl : rate_limit env.now env.rateLimitFile =
      ([Event.logInfo "rate limit hit — skipping execution"], .blocked) := by
    rw [hf, rate_limit_parsed env.now hp, if_pos ht]
  have hb : (rate_limit env.now env.rateLimitFile).2 = .blocked := by
    rw [hrl]
  rw [main_blocked hb, hrl]
  exact ⟨rfl, rfl⟩

/-- A run 10 seconds after a persisted timestamp of 0. -/
def c3env : Env :=
  { now := 10
    rateLimitFile := some "0"
    dns := .answers ["1.2.3.4"]
    listAttempt := fun _ => .exn "network unreachable"
    recordName := some "example.com"
    putOk := fun _ => true
    putErr := fun _ => "" }

/-- C3 witness. -/
theorem C3_witness :
    (main c3env).2 = .exited 0 ∧ (main c3env).1.filter isNet = [] := by
  have hp : pyFloat "0" = some ((digitsVal ['0'] : ℕ) : ℚ) := rfl
  have h0 : digitsVal ['0'] = 0 := by decide
  rw [h0, Nat.cast_zero] at hp
  refine C3_rate_limited_run_is_silent rfl hp ?_
  show (10 : ℚ) - 0 < MIN_SECONDS_BETWEEN_RUNS
  norm_num [MIN_SECONDS_BETWEEN_RUNS]

/-- C4: whenever the rate limiter lets the run proceed, the current time
is written as the new timestamp, and in the trace that write precedes
every DNS query and HTTP call — regardless of how the rest of the run
goes. -/
theorem C4_timestamp_written_before_network {env : Env}
    (hrl : (rate_limit env.now env.rateLimitFile).2 = .proceed) :
    ∃ pre post, (main env).1 = pre ++ Event.writeTimestamp env.now :: post ∧
      ∀ e ∈ pre, isNet e = false := by
  refine ⟨[Event.logInfo "executing dyndns agent"], (mainAfterRl env).1, ?_, ?_⟩
  · rw [main_proceed hrl]
    rfl
  · intro e he
    simp only [List.mem_singleton] at he
    subst he
    rfl

/-- A run with no persisted timestamp that later fails its lookups. -/
def c4env : Env :=
  { now := 77
    rateLimitFile := none
    dns := .answers ["1.2.3.4"]
    listAttempt := fun _ => .exn "network unreachable"
    recordName := some "example.com"
    putOk := fun _ => true
    putErr := fun _ => "" }

/-- C4 witness. -/
theorem C4_witness :
    ∃ pre post, (main c4env).1 = pre ++ Event.writeTimestamp c4env.now :: post ∧
      ∀ e ∈ pre, isNet e = false :=
  C4_timestamp_written_before_network rfl

/-- A run whose timestamp file holds non-empty, non-numeric text. -/
def c5env : Env :=
  { now := 1000
    rateLimitFile := some "abc"
    dns := .answers ["1.2.3.4"]
    listAttempt := fun _ => .exn "unreachable"
    recordName := none
    putOk := fun _ => true
    putErr := fun _ => "" }

/-- C5 fails as stated: with file contents "abc" — unparseable as a
number — `float()` raises, so the rate limiter neither treats the last
run as zero nor lets the run proceed; the whole process dies on the
uncaught exception. -/
theorem C5_counterexample :
    (rate_limit c5env.now c5env.rateLimitFile).2 = .raised ∧
    (rate_limit c5env.now c5env.rateLimitFile).2 ≠ .proceed ∧
    (main c5env).2 = .raised := by
  refine ⟨by decide, by decide, by decide⟩

/-- C5 (amended): an absent timestamp file always proceeds, and contents
that strip to the empty string are treated as a last-run time of zero, so
the run proceeds whenever at least 55 seconds have passed since the
epoch; non-empty unparseable contents instead raise. -/
theorem C5_absent_or_blank_proceeds (now : ℚ) (s : String) :
    (rate_limit now none).2 = .proceed ∧
    (stripChars s.data = [] → MIN_SECONDS_BETWEEN_RUNS ≤ now →
      (rate_limit now (some s)).2 = .proceed) := by
  refine ⟨rfl, fun h1 h2 => ?_⟩
  have hn : ¬ (now - 0 < MIN_SECONDS_BETWEEN_RUNS) := by
    rw [sub_zero]
    exact not_lt.mpr h2
  rw [rate_limit_blank now h1, if_neg hn]

/-- C5 witness. -/
theorem C5_witness :
    (rate_limit 1000 none).2 = .proceed ∧
    (rate_limit 1000 (some "  ")).2 = .proceed :=
  ⟨(C5_absent_or_blank_proceeds 1000 "  ").1,
   (C5_absent_or_blank_proceeds 1000 "  ").2 (by decide)
     (by norm_num [MIN_SECONDS_BETWEEN_RUNS])⟩

/-- C6: when every one of the three list-call attempts fails, the run
exits with code 1, never issues an update call, and sleeps exactly
5 + 10 + 15 seconds of backoff. -/
theorem C6_list_exhaustion_is_fatal {env : Env} {ip : String}
    (hrl : (rate_limit env.now env.rateLimitFile).2 = .proceed)
    (hip : (get_public_ip env.dns).2 = some ip) (hne : ip ≠ "")
    (hfail : ∀ k, 1 ≤ k → k ≤ MAX_RETRIES → ∀ b, env.listAttempt k ≠ .ok b) :
    (main env).2 = .exited 1 ∧ (main env).1.filter isPut = [] ∧
      sleepTotal (main env).1 = 5 + 10 + 15 := by
  have hge : ∀ k ∈ List.range' 1 MAX_RETRIES, ∀ b, env.listAttempt k ≠ .ok b := by
    intro k hk
    have h13 : k = 1 ∨ k = 2 ∨ k = 3 := by
      rw [show List.range' 1 MAX_RETRIES = [1, 2, 3] from rfl] at hk
      simpa using hk
    rcases h13 with rfl | rfl | rfl
    · exact hfail 1 (by norm_num) (by decide)
    · exact hfail 2 (by norm_num) (by decide)
    · exact hfail 3 (by norm_num) (by decide)
  have hal := attemptLoop_all_fail (List.range' 1 MAX_RETRIES) hge
  have hexit : (get_cloudflare_dns_records env.listAttempt).2 = .exit1 := by
    simp only [get_cloudflare_dns_records]
    exact hal.1
  have hgr : sleepTotal (get_cloudflare_dns_records env.listAttempt).1 = 5 + 10 + 15 := by
    show sleepTotal (Event.logInfo "getting cloudflare dns records" ::
      (attemptLoop env.listAttempt (List.range' 1 MAX_RETRIES)).1) = 5 + 10 + 15
    have hc : sleepTotal (Event.logInfo "getting cloudflare dns records" ::
        (attemptLoop env.listAttempt (List.range' 1 MAX_RETRIES)).1) =
        sleepSecs (Event.logInfo "getting cloudflare dns records") +
          sleepTotal (attemptLoop env.listAttempt (List.range' 1 MAX_RETRIES)).1 := by
      simp [sleepTotal]
    rw [hc, hal.2]
    decide
  rw [main_proceed hrl, mainAfterRl_ip hip hne, mainDecide_exit1 hexit]
  refine ⟨rfl, ?_, ?_⟩
  · simp [List.filter_cons, isPut, List.filter_append, get_records_no_put,
      get_public_ip_no_put]
  · show sleepTotal (Event.logInfo "executing dyndns agent" ::
      Event.writeTimestamp env.now :: ((get_public_ip env.dns).1 ++
        (get_cloudflare_dns_records env.listAttempt).1)) = 5 + 10 + 15
    simp only [sleepTotal, List.map_cons, List.sum_cons, List.map_append,
      List.sum_append]
    have h1 : ((get_public_ip env.dns).1.map sleepSecs).sum = 0 :=
      sleepTotal_get_public_ip env.dns
    have h2 : ((get_cloudflare_dns_records env.listAttempt).1.map sleepSecs).sum =
        5 + 10 + 15 := hgr
    rw [h1, h2]
    rfl

/-- A run with every list attempt hitting a transport error. -/
def c6env : Env :=
  { now := 0
    rateLimitFile := none
    dns := .answers ["1.2.3.4"]
    listAttempt := fun _ => .exn "connection timed out"
    recordName := some "example.com"
    putOk := fun _ => true
    putErr := fun _ => "" }

/-- C6 witness. -/
theorem C6_witness :
    (main c6env).2 = .exited 1 ∧ (main c6env).1.filter isPut = [] ∧
      sleepTotal (main c6env).1 = 5 + 10 + 15 :=
  C6_list_exhaustion_is_fatal rfl rfl (by decide)
    (fun _ _ _ _ h => ListAttempt.noConfusion h)

/-- Two distinct stale A records with the configured name. -/
def c7r1 : DnsRecord :=
  { id := some "r1", type := some "A", name := some "example.com",
    content := some "1.1.1.1" }

/-- Second record for the C7 counterexample. -/
def c7r2 : DnsRecord :=
  { id := some "r2", type := some "A", name := some "example.com",
    content := some "2.2.2.2" }

/-- A run whose list response holds both stale records. -/
def c7env : Env :=
  { now := 0
    rateLimitFile := none
    dns := .answers ["5.6.7.8"]
    listAttempt := fun _ => .ok ⟨true, some [c7r1, c7r2]⟩
    recordName := some "example.com"
    putOk := fun _ => true
    putErr := fun _ => "" }

/-- C7 fails as stated: with two distinct listed records both of type "A"
and the configured name, the run updates two DNS records, not at most
one. -/
theorem C7_counterexample :
    c7r1.type = some "A" ∧ c7r2.type = some "A" ∧
    c7r1.name = c7env.recordName ∧ c7r2.name = c7env.recordName ∧
    c7r1.id ≠ c7r2.id ∧
    (main c7env).1.filter isPut =
      [Event.httpPut (some "r1") "5.6.7.8" (some "example.com"),
       Event.httpPut (some "r2") "5.6.7.8" (some "example.com")] := by
  refine ⟨rfl, rfl, rfl, rfl, by decide, by decide⟩

/-- C7 (amended): the update calls of a run are exactly one PUT per
listed record with type "A", the configured name and mismatched content;
in particular every update call originates from such a record — records
of any other type or name never trigger one — and the run issues at most
one update whenever at most one listed record passes that guard. -/
theorem C7_updates_exactly_guarded_records {env : Env} {ip : String}
    {body : ListBody}
    (hrl : (rate_limit env.now env.rateLimitFile).2 = .proceed)
    (hip : (get_public_ip env.dns).2 = some ip) (hne : ip ≠ "")
    (hls : (get_cloudflare_dns_records env.listAttempt).2 = .ok body) :
    (main env).1.filter isPut =
      ((body.result.getD []).filter (updateGuard env.recordName ip)).map
        (fun r => Event.httpPut r.id ip r.name) ∧
    ∀ e ∈ (main env).1, isPut e = true →
      ∃ r ∈ body.result.getD [], r.type = some "A" ∧ r.name = env.recordName ∧
        r.content ≠ some ip ∧ e = Event.httpPut r.id ip r.name := by
  refine ⟨run_filter_isPut hrl hip hne hls, ?_⟩
  intro e he hp
  have hmem : e ∈ (main env).1.filter isPut := List.mem_filter.mpr ⟨he, hp⟩
  rw [run_filter_isPut hrl hip hne hls] at hmem
  rcases List.mem_map.mp hmem with ⟨r, hr, rfl⟩
  rcases List.mem_filter.mp hr with ⟨hrmem, hguard⟩
  simp only [updateGuard, decide_eq_true_eq] at hguard
  exact ⟨r, hrmem, hguard.1, hguard.2.1, hguard.2.2, rfl⟩

/-- A run listing one stale matching record and one foreign record. -/
def c7wenv : Env :=
  { c7env with
    listAttempt := fun _ => ListAttempt.ok ⟨true, some [c7r1,
      { id := some "r9", type := some "A", name := some "other.example.com",
        content := some "9.9.9.9" }]⟩ }

/-- C7 witness. -/
theorem C7_witness :
    (main c7wenv).1.filter isPut =
      [Event.httpPut (some "r1") "5.6.7.8" (some "example.com")] :=
  ((@C7_updates_exactly_guarded_records c7wenv "5.6.7.8"
      ⟨true, some [c7r1,
        { id := some "r9", type := some "A", name := some "other.example.com",
          content := some "9.9.9.9" }]⟩
      rfl rfl (by decide) (by decide)).1).trans (by decide)

/-- A TXT record carried in the list response. -/
def c8rec : DnsRecord :=
  { id := some "tid", type := some "TXT", name := some "example.com",
    content := some "v=spf1 -all" }

/-- A run whose list response holds only the TXT record. -/
def c8env : Env :=
  { now := 0
    rateLimitFile := none
    dns := .answers ["5.6.7.8"]
    listAttempt := fun _ => .ok ⟨true, some [c8rec]⟩
    recordName := some "example.com"
    putOk := fun _ => true
    putErr := fun _ => "" }

/-- C8 fails as stated: the listed record has type "TXT", yet the trace
holds no "checking record" log line for it at all — the full trace is
spelled out and contains no log about the record. -/
theorem C8_counterexample :
    c8rec.type ≠ some "A" ∧
    Event.logInfo ("checking record " ++ pyStrOpt c8rec.name) ∉ (main c8env).1 ∧
    (main c8env).1 =
      [Event.logInfo "executing dyndns agent", Event.writeTimestamp 0,
       Event.dnsQuery, Event.logInfo "getting cloudflare dns records",
       Event.httpGet 1] := by
  refine ⟨by decide, by decide, by decide⟩

/-- C8 (amended): in the decision loop a record of type other than "A"
contributes no event whatsoever — no "checking record" line, no decision
log, no action — while a record of type "A" always contributes the
"checking record" log line first. -/
theorem C8_checking_logged_iff_type_A (cfg : Option String) (ip : String)
    (ok : ℕ → Bool) (err : ℕ → String) (r : DnsRecord) (rs : List DnsRecord)
    (n : ℕ) :
    (r.type ≠ some "A" →
      processRecords cfg ip ok err (r :: rs) n = processRecords cfg ip ok err rs n) ∧
    (r.type = some "A" →
      ∃ tail, processRecords cfg ip ok err (r :: rs) n =
        Event.logInfo ("checking record " ++ pyStrOpt r.name) :: tail) := by
  constructor
  · intro h
    have hd : decideRecord cfg ip r = .skip := by
      simp [decideRecord, h]
    simp [processRecords, hd]
  · intro h
    rcases hd : decideRecord cfg ip r with _ | _ | _ | _
    · exfalso
      by_cases h2 : r.name = cfg ∧ r.content ≠ some ip <;>
        by_cases h3 : r.name = cfg <;>
          by_cases h4 : r.content = some ip <;>
            simp [decideRecord, h, h2, h3, h4] at hd
    · refine ⟨Event.logInfo ("updating record " ++ pyStrOpt r.name ++ " from " ++
        pyStrOpt r.content ++ " to " ++ ip) ::
        (update_cloudflare_dns_record (ok n) (err n) r.id ip r.name ++
          processRecords cfg ip ok err rs (n + 1)), ?_⟩
      simp [processRecords, hd]
    · refine ⟨Event.logInfo ("record " ++ pyStrOpt r.name ++
        " is already up to date") :: processRecords cfg ip ok err rs n, ?_⟩
      simp [processRecords, hd]
    · refine ⟨Event.logInfo ("record " ++ pyStrOpt r.name ++
        " is not the record we want to update") ::
        processRecords cfg ip ok err rs n, ?_⟩
      simp [processRecords, hd]

/-- An up-to-date A record used by the C8 witness. -/
def c8wrec : DnsRecord :=
  { id := some "rid", type := some "A", name := some "example.com",
    content := some "5.6.7.8" }

/-- C8 witness. -/
theorem C8_witness :
    processRecords (some "example.com") "5.6.7.8" (fun _ => true) (fun _ => "")
        [c8rec] 0 =
      processRecords (some "example.com") "5.6.7.8" (fun _ => true) (fun _ => "")
        [] 0 ∧
    ∃ tail, processRecords (some "example.com") "5.6.7.8" (fun _ => true)
        (fun _ => "") [c8wrec] 0 =
      Event.logInfo ("checking record " ++ pyStrOpt c8wrec.name) :: tail :=
  ⟨(C8_checking_logged_iff_type_A (some "example.com") "5.6.7.8"
      (fun _ => true) (fun _ => "") c8rec [] 0).1 (by decide),
   (C8_checking_logged_iff_type_A (some "example.com") "5.6.7.8"
      (fun _ => true) (fun _ => "") c8wrec [] 0).2 rfl⟩

/-- A run whose timestamp file holds prose, not a number. -/
def c9env : Env :=
  { now := 500
    rateLimitFile := some "not a number"
    dns := .answers ["1.2.3.4"]
    listAttempt := fun _ => .exn "unreachable"
    recordName := none
    putOk := fun _ => true
    putErr := fun _ => "" }

/-- C9 fails as stated: this run terminates abnormally (non-zero
interpreter exit through an uncaught exception) although the list call
never ran at all, let alone exhausted its retries — no network event is
in the trace. -/
theorem C9_counterexample :
    (main c9env).2 = .raised ∧ (main c9env).2 ≠ .exited 0 ∧
    (main c9env).1.filter isNet = [] := by
  refine ⟨by decide, by decide, by decide⟩

/-- C9 (amended): a rate-limited run exits 0; a run whose public IP is
unavailable exits 0; the update outcomes never influence the exit code;
and any run that does not exit 0 either died on the timestamp-parse
exception or exited 1 with the list call exhausted. -/
theorem C9_exit_code_characterization (env : Env) (ok2 : ℕ → Bool)
    (err2 : ℕ → String) :
    ((rate_limit env.now env.rateLimitFile).2 = .blocked →
      (main env).2 = .exited 0) ∧
    ((rate_limit env.now env.rateLimitFile).2 = .proceed →
      optFalsy (get_public_ip env.dns).2 = true → (main env).2 = .exited 0) ∧
    (main { env with putOk := ok2, putErr := err2 }).2 = (main env).2 ∧
    ((main env).2 ≠ .exited 0 →
      ((main env).2 = .raised ∧
        (rate_limit env.now env.rateLimitFile).2 = .raised) ∨
      ((main env).2 = .exited 1 ∧
        (get_cloudflare_dns_records env.listAttempt).2 = .exit1)) := by
  refine ⟨?_, ?_, ?_, ?_⟩
  · intro h
    rw [main_blocked h]
  · intro h hf
    rw [main_proceed h, mainAfterRl_noip hf]
  · exact (main_snd _).trans (main_snd env).symm
  · intro h0
    rcases hrl : (rate_limit env.now env.rateLimitFile).2 with _ | _ | _
    · exact absurd (by rw [main_snd]; simp [hrl]) h0
    · rcases hf : optFalsy (get_public_ip env.dns).2 with _ | _
      · rcases hg : (get_cloudflare_dns_records env.listAttempt).2 with body | _
        · exact absurd (by rw [main_snd]; simp [hrl, hf, hg]) h0
        · exact Or.inr ⟨by rw [main_snd]; simp [hrl, hf, hg], rfl⟩
      · exact absurd (by rw [main_snd]; simp [hrl, hf]) h0
    · exact Or.inl ⟨by rw [main_snd]; simp [hrl], rfl⟩

/-- A rate-limited run: 10 seconds after a persisted timestamp of 0. -/
def c9wa : Env :=
  { c3env with recordName := none }

/-- A run whose public-IP lookup yields an empty answer. -/
def c9wb : Env :=
  { now := 3
    rateLimitFile := none
    dns := .answers []
    listAttempt := fun _ => .exn "unreachable"
    recordName := none
    putOk := fun _ => true
    putErr := fun _ => "" }

/-- A run whose three list attempts all return non-200 responses. -/
def c9wd : Env :=
  { now := 0
    rateLimitFile := none
    dns := .answers ["1.2.3.4"]
    listAttempt := fun _ => .err "500 internal server error"
    recordName := some "example.com"
    putOk := fun _ => true
    putErr := fun _ => "" }

/-- C9 witness. -/
theorem C9_witness :
    (main c9wa).2 = .exited 0 ∧
    (main c9wb).2 = .exited 0 ∧
    (main { c9wd with putOk := fun _ => false, putErr := fun _ => "e" }).2 =
      (main c9wd).2 ∧
    (((main c9wd).2 = .raised ∧
        (rate_limit c9wd.now c9wd.rateLimitFile).2 = .raised) ∨
      ((main c9wd).2 = .exited 1 ∧
        (get_cloudflare_dns_records c9wd.listAttempt).2 = .exit1)) := by
  have h0 : digitsVal ['0'] = 0 := by decide
  have hp : pyFloat "0" = some ((digitsVal ['0'] : ℕ) : ℚ) := rfl
  rw [h0, Nat.cast_zero] at hp
  have hb : (rate_limit (10 : ℚ) (some "0")).2 = .blocked := by
    rw [rate_limit_parsed 10 hp,
      if_pos (by norm_num [MIN_SECONDS_BETWEEN_RUNS])]
  exact ⟨(C9_exit_code_characterization c9wa (fun _ => true) (fun _ => "")).1 hb,
    (C9_exit_code_characterization c9wb (fun _ => true) (fun _ => "")).2.1 rfl rfl,
    (C9_exit_code_characterization c9wd (fun _ => false) (fun _ => "e")).2.2.1,
    (C9_exit_code_characterization c9wd (fun _ => true) (fun _ => "")).2.2.2
      (by decide)⟩

/-- C10: a 200 list response whose body is empty or lacks the `"result"`
key makes the driver log "no DNS records returned from Cloudflare" and
end the run normally: no update call, exit code 0. -/
theorem C10_missing_result_soft_fail {env : Env} {ip : String}
    {body : ListBody}
    (hrl : (rate_limit env.now env.rateLimitFile).2 = .proceed)
    (hip : (get_public_ip env.dns).2 = some ip) (hne : ip ≠ "")
    (hls : (get_cloudflare_dns_records env.listAttempt).2 = .ok body)
    (hbad : bodyFalsy body = true ∨ body.result = none) :
    Event.logError "no DNS records returned from Cloudflare" ∈ (main env).1 ∧
    (main env).1.filter isPut = [] ∧ (main env).2 = .exited 0 := by
  have hb : body.result = none := (body_guard_iff body).mp hbad
  rw [main_proceed hrl, mainAfterRl_ip hip hne, mainDecide_ok_bad hls hb]
  refine ⟨by simp, ?_, rfl⟩
  simp [List.filter_cons, isPut, List.filter_append, get_records_no_put,
    get_public_ip_no_put]

/-- A run whose list call returns 200 with an empty JSON object. -/
def c10env : Env :=
  { now := 0
    rateLimitFile := none
    dns := .answers ["1.2.3.4"]
    listAttempt := fun _ => .ok ⟨false, none⟩
    recordName := some "example.com"
    putOk := fun _ => true
    putErr := fun _ => "" }

/-- C10 witness. -/
theorem C10_witness :
    Event.logError "no DNS records returned from Cloudflare" ∈ (main c10env).1 ∧
    (main c10env).1.filter isPut = [] ∧ (main c10env).2 = .exited 0 :=
  @C10_missing_result_soft_fail c10env "1.2.3.4" ⟨false, none⟩ rfl rfl
    (by decide) (by decide) (Or.inr rfl)

end DDNS
